import Mathlib

/-!
Shallow embedding of the pentagon-pizza-meter backend (src/backend) and
verification of its design-level properties.  Decimal ("float") arithmetic is
modelled over `ℚ`; Python `round(x, n)` is modelled by rounding `x * 10^n` to
the nearest integer (Python rounds ties to even on binary floats; no property
below depends on the tie-breaking rule).  Calls into upstream services
(yfinance, NewsAPI, the GPT classifier, populartimes) are modelled by passing
each call's outcome as an explicit argument; a Python exception escaping a
function is modelled by `Except.error`.
-/

namespace PentagonPizza

/-- Python `round(q, 2)` (tie-breaking abstracted to round-half-up). -/
def round2 (q : ℚ) : ℚ := (round (q * 100) : ℚ) / 100

/-- Python `round(q, 1)` (tie-breaking abstracted to round-half-up). -/
def round1 (q : ℚ) : ℚ := (round (q * 10) : ℚ) / 10

/-! ## Quote feed: stocks.py and defense_stocks.py -/

/-- Outcome of the per-ticker upstream call `yf.Ticker(t).info`, as observed by
the fetch loop: either the info dict with its two optional price fields
(a missing key yields the `'N/A'` default, modelled `none`), or a raised
exception. -/
inductive TickerOutcome where
  | info (currentPrice previousClose : Option ℚ)
  | exn (msg : String)
deriving DecidableEq

/-- stocks.py `StockData` (pydantic model). -/
structure StockData where
  ticker : String
  current_price : Option ℚ
  change_percent : Option ℚ
  status : String
deriving DecidableEq

/-- stocks.py `DEFENSE_TICKERS` (same list in defense_stocks.py). -/
def DEFENSE_TICKERS : List String :=
  ["LMT", "RTX", "BA", "GD", "NOC", "HII", "LHX", "BAESY", "LDOS", "AXON"]

/-- Body of the per-ticker loop of stocks.py `fetch_defense_stocks_data`
(lines 41-76): an exception yields the degraded `"error"` record, both prices
present yield the percent change (status computed from the unrounded change,
the stored `change_percent` rounded to 2 decimals via `f"{x:.2f}"`), and a
missing price yields status `"unknown"`. -/
def scoreTicker (ticker : String) (o : TickerOutcome) : StockData :=
  match o with
  | .exn _ => ⟨ticker, none, none, "error"⟩
  | .info cur prev =>
    match cur, prev with
    | some c, some p =>
      let pct := (c - p) / p * 100
      ⟨ticker, some c, some (round2 pct),
        if pct > 0 then "increasing" else if pct < 0 then "decreasing" else "stable"⟩
    | some c, none => ⟨ticker, some c, none, "unknown"⟩
    | none, _ => ⟨ticker, none, none, "unknown"⟩

/-- stocks.py `fetch_defense_stocks_data`: one record is appended per ticker,
whatever its outcome. -/
def fetch_defense_stocks_data (outcomes : List (String × TickerOutcome)) : List StockData :=
  outcomes.map fun x => scoreTicker x.1 x.2

/-- defense_stocks.py record (plain dict, no status field). -/
structure DSRecord where
  ticker : String
  current_price : Option ℚ
  change_percent : Option ℚ
deriving DecidableEq

/-- defense_stocks.py `get_defense_stocks_data` (lines 19-48).  Its except
block runs `print(..., file=sys.stderr)`, but `sys` is imported only under
`__main__`; when the module is imported (as app.py does) a per-ticker
exception therefore raises `NameError` out of the handler and aborts the whole
batch.  A non-raising ticker with a missing price keeps its record with
`change_percent = None`. -/
def get_defense_stocks_data : List (String × TickerOutcome) → Except String (List DSRecord)
  | [] => .ok []
  | (_, .exn _) :: _ => .error "NameError: name sys is not defined"
  | (t, .info cur prev) :: rest =>
    let change : Option ℚ :=
      match cur, prev with
      | some c, some p => some (round2 ((c - p) / p * 100))
      | _, _ => none
    (get_defense_stocks_data rest).map fun l => ⟨t, cur, change⟩ :: l

/-- app.py `get_analysis`, `detailed_stocks_data` entry (lines 244-251): the
status is derived by `stock['change_percent'] > 0` with no None guard, so a
record with a missing change raises `TypeError` (comparing None with int). -/
def appStockStatus : Option ℚ → Except String String
  | none => .error "TypeError: NoneType and int comparison"
  | some c => .ok (if c > 0 then "increasing" else if c < 0 then "decreasing" else "stable")

/-! ## Risk feed: news_analysis.py and news.py -/

/-- A raw article as delivered by NewsAPI (`data['articles']` entries);
`description` may be null. -/
structure RawArticle where
  url : String
  title : String
  description : Option String
  publishedAt : String
  sourceName : String
deriving DecidableEq

/-- Outcome of the NewsAPI request as observed inside the try block: either a
raised exception (network error, `raise_for_status`), or a decoded body with
its status string and article list. -/
inductive NewsResp where
  | exn (msg : String)
  | resp (status : String) (arts : List RawArticle)
deriving DecidableEq

/-- A cleaned article (news.py `Article` / news_analysis.py clean dict). -/
structure Article where
  title : String
  summary : String
  link : String
  published : String
  source : String
deriving DecidableEq

/-- The article-collection loop of `fetch_fresh_headlines`: de-duplicate by
url, map `description or ''` to the summary, stop once 20 articles are
accepted (upstream order preserved). -/
def collectArticles : List RawArticle → List String → List Article → List Article
  | [], _, acc => acc.reverse
  | a :: rest, seen, acc =>
    if a.url ∈ seen then collectArticles rest seen acc
    else
      let acc2 := (⟨a.title, a.description.getD "", a.url, a.publishedAt, a.sourceName⟩ : Article) :: acc
      if 20 ≤ acc2.length then acc2.reverse
      else collectArticles rest (a.url :: seen) acc2

/-- news_analysis.py / news.py `fetch_fresh_headlines` (lines 53-107 resp.
49-103).  The credential check `if not newsapi_key: raise ValueError(...)`
sits BEFORE the try block, so a missing (or empty) `NEWSAPI_KEY` — modelled as
`none` — raises out of the function; every failure inside the try block is
caught and an empty list is returned. -/
def fetch_fresh_headlines (key : Option String) (up : NewsResp) : Except String (List Article) :=
  match key with
  | none => .error "ValueError: NEWSAPI_KEY environment variable not set"
  | some _ =>
    match up with
    | .exn _ => .ok []
    | .resp status arts =>
      if status = "ok" then .ok (collectArticles arts [] []) else .ok []

/-- Result of the GPT classification (news_analysis.py `analyze_with_gpt`
return dict / news.py `Analysis`). -/
structure AnalysisRes where
  severity : ℚ
  explanation : String
deriving DecidableEq

/-- news_analysis.py `analyze_with_gpt` error containment: a classifier
failure (`none` outcome) is converted to severity 0 with the fixed
explanation instead of raising. -/
def analyze_with_gpt (outcome : Option AnalysisRes) : AnalysisRes :=
  outcome.getD ⟨0, "Error in analysis"⟩

/-- One scored article (news.py `ArticleResult` / news_analysis.py result
dict). -/
structure ArticleResult where
  title : String
  published : String
  source : String
  analysis : AnalysisRes
  link : String
deriving DecidableEq

/-- `full_text = f"{article['title']} {article['summary']}"`. -/
def fullText (a : Article) : String := a.title ++ " " ++ a.summary

/-- Python `not full_text.strip()`: true iff the string is all whitespace. -/
def isBlank (s : String) : Bool := s.toList.all Char.isWhitespace

/-- The analysis loop of `calculate_doomsday_probability` / `update_news`:
articles whose combined title+summary text is blank are silently skipped,
every other article is scored by the classifier (whose total outcome,
error fallback included, is the function `classify`). -/
def scoreArticles (classify : String → AnalysisRes) : List Article → List ArticleResult
  | [] => []
  | a :: rest =>
    if isBlank (fullText a) then scoreArticles classify rest
    else
      ⟨a.title, a.published, a.source, classify (fullText a), a.link⟩ ::
        scoreArticles classify rest

/-- news_analysis.py / news.py `interpret_probability` (lines 246-257 resp.
204-215). -/
def interpret_probability (probability : ℚ) : String :=
  if probability < 20 then
    "Business as usual - no significant global threats detected"
  else if probability < 40 then
    "Some concerning developments, but nothing civilization-threatening"
  else if probability < 60 then
    "Multiple serious global challenges present"
  else if probability < 80 then
    "High level of global instability - multiple severe threats active"
  else
    "EXTREME ALERT: Multiple potential civilization-threatening events detected"

/-- news.py `DoomsdayAnalysis` / news_analysis.py result dict. -/
structure DoomsdayAnalysis where
  timestamp : String
  doomsday_probability : ℚ
  analysis_basis : ℕ
  detailed_results : List ArticleResult
  interpretation : String
deriving DecidableEq

/-- Mean severity of the scored items (`total_severity / len(results)`,
0 when none). -/
def severityMean (rs : List ArticleResult) : ℚ :=
  if rs = [] then 0 else (rs.map fun r => r.analysis.severity).sum / rs.length

/-- news_analysis.py `calculate_doomsday_probability` (lines 189-244; news.py
`update_news` lines 149-202 is identical in structure), over the fetched
article list and the classifier outcome. -/
def calculate_doomsday_probability (now : String) (classify : String → AnalysisRes)
    (articles : List Article) : DoomsdayAnalysis :=
  if articles = [] then
    ⟨now, 0, 0, [], "Unable to assess - no news articles found"⟩
  else
    let results := scoreArticles classify articles
    let probability := round2 (severityMean results * 100)
    ⟨now, probability, results.length, results, interpret_probability probability⟩

/-! ## Severity distribution: app.py `calculate_severity_distribution` -/

/-- The four band counters of app.py `calculate_severity_distribution`. -/
structure SeverityCounts where
  low : ℕ
  medium : ℕ
  high : ℕ
  critical : ℕ
deriving DecidableEq

/-- The per-band percentages. -/
structure SeverityPercents where
  low : ℚ
  medium : ℚ
  high : ℚ
  critical : ℚ
deriving DecidableEq

/-- The per-article band assignment of app.py lines 307-316. -/
def severityBump (c : SeverityCounts) (s : ℚ) : SeverityCounts :=
  if s ≤ 1/4 then { c with low := c.low + 1 }
  else if s ≤ 1/2 then { c with medium := c.medium + 1 }
  else if s ≤ 3/4 then { c with high := c.high + 1 }
  else { c with critical := c.critical + 1 }

/-- The counting loop of `calculate_severity_distribution`. -/
def severityCounts (articles : List ArticleResult) : SeverityCounts :=
  articles.foldl (fun c a => severityBump c a.analysis.severity) ⟨0, 0, 0, 0⟩

/-- `round((count / total * 100), 2) if total > 0 else 0`. -/
def severityPct (count total : ℕ) : ℚ :=
  if 0 < total then round2 ((count : ℚ) / total * 100) else 0

/-- app.py `calculate_severity_distribution` (lines 298-325). -/
def calculate_severity_distribution (articles : List ArticleResult) :
    SeverityCounts × SeverityPercents :=
  let c := severityCounts articles
  let total := articles.length
  (c, ⟨severityPct c.low total, severityPct c.medium total,
       severityPct c.high total, severityPct c.critical total⟩)

/-! ## Venue feed: pizza.py (and the same logic inlined in app.py) -/

/-- Python `needle in hay` for strings (contiguous substring test), at the
character-list level. -/
def hasSubstr (needle : List Char) : List Char → Bool
  | [] => needle.isEmpty
  | c :: rest => needle.isPrefixOf (c :: rest) || hasSubstr needle rest

/-- Python `s.lower()`, at the character-list level. -/
def lowerList (s : String) : List Char := s.toList.map Char.toLower

/-- One day entry of a venue's `populartimes` table: the day name and its
hourly popularity list. -/
structure DayPop where
  name : String
  data : List ℕ
deriving DecidableEq

/-- A raw venue as delivered by `populartimes.get`.  The optional
`current_popularity` models presence of the dict key; the opaque coordinates
map carries no logic and is omitted. -/
structure Place where
  name : String
  address : String
  types : List String
  current_popularity : Option ℕ
  populartimes : List DayPop
  rating : Option ℚ
  rating_n : Option ℕ
  time_wait : Option ℕ
  time_spent : Option ℕ
deriving DecidableEq

/-- pizza.py / app.py `is_pizza_place`: the token "pizza" occurs
(case-insensitively) in some type or in the name. -/
def is_pizza_place (p : Place) : Bool :=
  p.types.any (fun t => hasSubstr "pizza".toList (lowerList t)) ||
    hasSubstr "pizza".toList (lowerList p.name)

/-- The de-duplication key `(place["name"], place["address"])`. -/
def placeKey (p : Place) : String × String := (p.name, p.address)

/-- Bool form of "has the same key as", used to state first-occurrence
properties via `List.find?`. -/
def sameKeyAs (k : String × String) (p : Place) : Bool := decide (placeKey p = k)

/-- The de-duplication loop of pizza.py lines 99-106 / app.py lines 76-83,
with its `seen` set of keys. -/
def removeDuplicates : List Place → List (String × String) → List Place
  | [], _ => []
  | p :: rest, seen =>
    if placeKey p ∈ seen then removeDuplicates rest seen
    else p :: removeDuplicates rest (placeKey p :: seen)

/-- `unique_places` as built from the concatenated query results. -/
def unique_places (places : List Place) : List Place := removeDuplicates places []

/-- The `typical_popularity` loop (pizza.py lines 114-118): starts at 0,
breaks at the first day whose name equals the current weekday and indexes its
hourly list at the current hour.  `day["data"][current_hour]` raises
`IndexError` when the hour is out of range, modelled by `none`; `some v` is
the value the loop leaves in `typical_popularity`. -/
def typicalPopularity (pts : List DayPop) (currentDay : String) (currentHour : ℕ) : Option ℕ :=
  match pts with
  | [] => some 0
  | d :: rest =>
    if d.name = currentDay then d.data.get? currentHour
    else typicalPopularity rest currentDay currentHour

/-- pizza.py `CurrentStatus`. -/
structure CurrentStatus where
  current_popularity : ℕ
  typical_popularity : ℕ
  busyness_ratio : ℚ
  percent_difference : ℚ
  status : String
deriving DecidableEq

/-- The record-level status of pizza.py line 140 / app.py line 117. -/
def venueStatus (pd : ℚ) : String :=
  if pd > 0 then "busier" else if pd < 0 then "less busy" else "typical"

/-- The exact (unrounded) busyness ratio: `current / typical` when typical
is positive, else the default 1. -/
def bratio (cur typ : ℕ) : ℚ := if 0 < typ then (cur : ℚ) / typ else 1

/-- The `current_status` computation of pizza.py lines 113-121 and 135-141
(identically app.py lines 90-98 and 112-118) for one venue: skipped
(`ok none`) without a `current_popularity` key; `IndexError` aborts; otherwise
the stored ratio is rounded to 2 decimals while `percent_difference` is
computed from the unrounded ratio. -/
def scorePlace (currentDay : String) (currentHour : ℕ) (p : Place) :
    Except String (Option CurrentStatus) :=
  match p.current_popularity with
  | none => .ok none
  | some cur =>
    match typicalPopularity p.populartimes currentDay currentHour with
    | none => .error "IndexError: list index out of range"
    | some typ =>
      let pd := round1 ((bratio cur typ - 1) * 100)
      .ok (some ⟨cur, typ, round2 (bratio cur typ), pd, venueStatus pd⟩)

/-- pizza.py `WeeklyData`. -/
structure WeeklyData where
  hourly_data : List ℕ
  peak_hour : ℕ
  peak_popularity : ℕ
deriving DecidableEq

/-- `day["data"].index(max(day["data"]))` and `max(day["data"])`;
Python `max` of an empty sequence raises `ValueError` (`none`). -/
def peakData (data : List ℕ) : Option (ℕ × ℕ) :=
  match data.max? with
  | none => none
  | some m => some (data.indexOf m, m)

/-- The `weekly_schedule` loop (pizza.py lines 123-129); a day with an empty
hourly list raises and aborts.  (Duplicate day names would overwrite in the
Python dict; the weekly table always carries seven distinct names, so the
association list in iteration order is faithful.) -/
def buildWeekly : List DayPop → Option (List (String × WeeklyData))
  | [] => some []
  | d :: rest =>
    match peakData d.data with
    | none => none
    | some pk => (buildWeekly rest).map fun w => (d.name, ⟨d.data, pk.1, pk.2⟩) :: w

/-- pizza.py `PizzaPlace`. -/
structure PizzaPlace where
  name : String
  address : String
  current_status : CurrentStatus
  google_rating : Option ℚ
  number_of_ratings : Option ℕ
  place_types : List String
  weekly_popularity : List (String × WeeklyData)
  wait_time_minutes : Option ℕ
  time_spent_minutes : Option ℕ
deriving DecidableEq

/-- The whole per-venue body of the `busy_places` loop (pizza.py lines
112-151). -/
def processPlace (currentDay : String) (currentHour : ℕ) (p : Place) :
    Except String (Option PizzaPlace) :=
  match scorePlace currentDay currentHour p with
  | .error e => .error e
  | .ok none => .ok none
  | .ok (some cs) =>
    match buildWeekly p.populartimes with
    | none => .error "ValueError: max of empty sequence"
    | some w =>
      .ok (some ⟨p.name, p.address, cs, p.rating, p.rating_n, p.types, w,
        p.time_wait, p.time_spent⟩)

/-- The `busy_places` loop over the de-duplicated venues; the first raised
exception aborts the whole tick body. -/
def processPlaces (currentDay : String) (currentHour : ℕ) :
    List Place → Except String (List PizzaPlace)
  | [] => .ok []
  | p :: rest =>
    match processPlace currentDay currentHour p with
    | .error e => .error e
    | .ok none => processPlaces currentDay currentHour rest
    | .ok (some pp) => (processPlaces currentDay currentHour rest).map (pp :: ·)

/-- Stable insertion (descending by `|percent_difference|`): an element is
placed after every earlier element whose key is at least as large, which is
exactly the order produced by Python's stable
`sort(key=..., reverse=True)`. -/
def insertByAbsPd (x : PizzaPlace) : List PizzaPlace → List PizzaPlace
  | [] => [x]
  | y :: rest =>
    if |y.current_status.percent_difference| < |x.current_status.percent_difference| then
      x :: y :: rest
    else y :: insertByAbsPd x rest

/-- `busy_places.sort(key=lambda x: abs(...percent_difference), reverse=True)`
(stable, descending). -/
def sortPlaces (l : List PizzaPlace) : List PizzaPlace :=
  l.foldl (fun acc x => insertByAbsPd x acc) []

/-- pizza.py `PizzaMetadata`. -/
structure PizzaMetadata where
  timestamp : String
  location : String
  radius_miles : ℕ
  search_type : String
  current_time : String
  current_day : String
  total_pizza_places_found : ℕ
  places_with_current_data : ℕ
deriving DecidableEq

/-- pizza.py `PizzaAnalysis` — the snapshot type of the venue cache slot. -/
structure PizzaAnalysis where
  metadata : PizzaMetadata
  pizza_places : List PizzaPlace
deriving DecidableEq

/-- The wall-clock values observed during one tick (`datetime.now()`); the
except branch re-reads the clock, abstracted here as the same tick values. -/
structure Tick where
  timestamp : String
  hour : ℕ
  day : String

/-- The snapshot published by the except branch of
`update_pentagon_pizza_data` (pizza.py lines 175-193): fresh timestamp, zero
venues. -/
def emptyPizzaAnalysis (t : Tick) : PizzaAnalysis :=
  ⟨⟨t.timestamp, "Pentagon Area", 5, "Pizza Places", toString t.hour ++ ":00",
    t.day, 0, 0⟩, []⟩

/-- The two sequential `populartimes.get` calls (restaurant, then
meal_takeaway) with the per-query pizza filter; an exception in either call
escapes to the enclosing handler, and the second call never runs after the
first raises. -/
def runPizzaFetch : Except String (List Place) × Except String (List Place) →
    Except String (List Place)
  | (.error e, _) => .error e
  | (.ok _, .error e) => .error e
  | (.ok r1, .ok r2) => .ok (r1.filter is_pizza_place ++ r2.filter is_pizza_place)

/-- pizza.py `update_pentagon_pizza_data` (lines 70-193) acting on the
`pizza_data` cache slot: on success the slot receives the freshly computed
snapshot; on ANY exception (systemic fetch failure or scoring error) the
except branch overwrites the slot with a fresh EMPTY snapshot — the prior
value is discarded either way. -/
def update_pentagon_pizza_data (t : Tick)
    (up : Except String (List Place) × Except String (List Place))
    (_cache : Option PizzaAnalysis) : Option PizzaAnalysis :=
  match runPizzaFetch up with
  | .error _ => some (emptyPizzaAnalysis t)
  | .ok places =>
    let uniq := unique_places places
    match processPlaces t.day t.hour uniq with
    | .error _ => some (emptyPizzaAnalysis t)
    | .ok busy =>
      some ⟨⟨t.timestamp, "Pentagon Area", 5, "Pizza Places",
        toString t.hour ++ ":00", t.day, uniq.length, busy.length⟩,
        sortPlaces busy⟩

/-! ## Pizza status distribution: app.py `calculate_pizza_status_distribution` -/

/-- The five name buckets of app.py lines 329-348. -/
structure PizzaDistribution where
  very_busy : List String
  busy : List String
  typical : List String
  quiet : List String
  very_quiet : List String
deriving DecidableEq

/-- The per-place classification chain of app.py lines 339-348, as the bucket
label assigned to a `percent_difference` value. -/
def pizzaStatusOf (pd : ℚ) : String :=
  if pd > 50 then "very_busy"
  else if pd > 20 then "busy"
  else if pd < -50 then "very_quiet"
  else if pd < -20 then "quiet"
  else "typical"

/-- app.py `calculate_pizza_status_distribution` bucket loop, over
(name, percent_difference) pairs, preserving encounter order per bucket. -/
def calculate_pizza_status_distribution : List (String × ℚ) → PizzaDistribution
  | [] => ⟨[], [], [], [], []⟩
  | (n, pd) :: rest =>
    let d := calculate_pizza_status_distribution rest
    if pd > 50 then { d with very_busy := n :: d.very_busy }
    else if pd > 20 then { d with busy := n :: d.busy }
    else if pd < -50 then { d with very_quiet := n :: d.very_quiet }
    else if pd < -20 then { d with quiet := n :: d.quiet }
    else { d with typical := n :: d.typical }

/-! ## Concrete instances used by witnesses and counterexamples -/

/-- A trivial total classifier outcome (severity 0). -/
def zeroClassify : String → AnalysisRes := fun _ => ⟨0, "none"⟩

/-- An article whose title and summary are both empty, so its combined
text is blank and the analysis loop skips it. -/
def blankArticle : Article := ⟨"", "", "url-x", "2025-01-01", "src"⟩

/-- A venue matching the spec example: current popularity 80, typical 40. -/
def demoPlace : Place :=
  ⟨"Marco Pizza", "1 Main St", ["restaurant"], some 80, [⟨"Monday", [40]⟩],
    none, none, none, none⟩

/-- A venue whose Monday table has a single entry, so hour 1 is out of
range. -/
def shortPlace : Place :=
  ⟨"Slice House", "2 Oak Ave", ["restaurant"], some 10, [⟨"Monday", [40]⟩],
    none, none, none, none⟩

/-- A venue with current popularity 1 and typical 3, whose exact busyness
ratio 1/3 is not representable after rounding to 2 decimals. -/
def thirdPlace : Place :=
  ⟨"Pie Corner", "3 Elm Rd", ["restaurant"], some 1, [⟨"Monday", [3]⟩],
    none, none, none, none⟩

/-- Projection of the stored busyness ratio out of a venue scoring result. -/
def ratioOf : Except String (Option CurrentStatus) → Option ℚ
  | .ok (some cs) => some cs.busyness_ratio
  | _ => none

/-- Two fetch results sharing the (name, address) key but produced by the
two different place-type queries. -/
def placeA : Place :=
  ⟨"Marco Pizza", "1 Main St", ["restaurant"], some 50, [], none, none, none, none⟩

/-- Same key as `placeA`, different payload. -/
def placeB : Place :=
  ⟨"Marco Pizza", "1 Main St", ["meal_takeaway"], some 70, [], none, none, none, none⟩

/-- A tick's observed wall-clock values. -/
def demoTick : Tick := ⟨"2025-06-13T12:00:00", 12, "Friday"⟩

/-- A scored venue as held by a previously published snapshot. -/
def demoPizzaPlace : PizzaPlace :=
  ⟨"Marco Pizza", "1 Main St", ⟨80, 40, 2, 100, "busier"⟩, none, none,
    ["restaurant"], [("Monday", ⟨[40], 0, 40⟩)], none, none⟩

/-- A previously published venue snapshot with one live venue. -/
def priorPizzaAnalysis : PizzaAnalysis :=
  ⟨⟨"2025-06-12T18:00:00", "Pentagon Area", 5, "Pizza Places", "18:00",
    "Thursday", 1, 1⟩, [demoPizzaPlace]⟩

/-! ## Theorems -/

/-- C6 (confirmed): `interpret_probability` partitions [0, 100] into five
half-open ascending bands with lower-inclusive boundaries — each band is
characterised exactly by its message — and probability 20 maps to the
"concerning" band while 19.99 maps to "business as usual". -/
theorem interpretation_bands_partition :
    (∀ p : ℚ, 0 ≤ p → p ≤ 100 →
      (((0 ≤ p ∧ p < 20) ↔ interpret_probability p =
          "Business as usual - no significant global threats detected") ∧
       ((20 ≤ p ∧ p < 40) ↔ interpret_probability p =
          "Some concerning developments, but nothing civilization-threatening") ∧
       ((40 ≤ p ∧ p < 60) ↔ interpret_probability p =
          "Multiple serious global challenges present") ∧
       ((60 ≤ p ∧ p < 80) ↔ interpret_probability p =
          "High level of global instability - multiple severe threats active") ∧
       ((80 ≤ p ∧ p ≤ 100) ↔ interpret_probability p =
          "EXTREME ALERT: Multiple potential civilization-threatening events detected"))) ∧
    interpret_probability 20 =
      "Some concerning developments, but nothing civilization-threatening" ∧
    interpret_probability (1999/100) =
      "Business as usual - no significant global threats detected" := by
  refine ⟨?_, ?_, ?_⟩
  · intro p h0 h100
    unfold interpret_probability
    split_ifs with h1 h2 h3 h4 <;>
      refine ⟨?_, ?_, ?_, ?_, ?_⟩ <;> constructor <;> intro hx <;>
        first
          | rfl
          | (exact ⟨by linarith, by linarith⟩)
          | (exact absurd hx (by decide))
          | (rcases hx with ⟨hx1, hx2⟩; exfalso; linarith)
  · norm_num [interpret_probability]
  · norm_num [interpret_probability]

/-- C6 witness: the theorem applied at probability 50, whose band is
"multiple serious global challenges". -/
theorem interpretation_bands_partition_witness :
    interpret_probability 50 = "Multiple serious global challenges present" :=
  ((interpretation_bands_partition.1 50 (by norm_num) (by norm_num)).2.2.1).mp
    ⟨by norm_num, by norm_num⟩

/-- The very_busy bucket collects exactly the places with difference
above 50, in encounter order. -/
lemma dist_very_busy (places : List (String × ℚ)) :
    (calculate_pizza_status_distribution places).very_busy =
      (places.filter fun x => decide (50 < x.2)).map Prod.fst := by
  induction places with
  | nil => rfl
  | cons hd tl ih =>
    obtain ⟨n, pd⟩ := hd
    simp only [calculate_pizza_status_distribution]
    by_cases h : pd > 50
    · rw [if_pos h]
      simp [List.filter_cons, h, ih]
    · rw [if_neg h]
      split_ifs <;> simp [List.filter_cons, h, ih]

/-- The busy bucket collects exactly the places with difference in
(20, 50]. -/
lemma dist_busy (places : List (String × ℚ)) :
    (calculate_pizza_status_distribution places).busy =
      (places.filter fun x => decide (20 < x.2 ∧ x.2 ≤ 50)).map Prod.fst := by
  induction places with
  | nil => rfl
  | cons hd tl ih =>
    obtain ⟨n, pd⟩ := hd
    simp only [calculate_pizza_status_distribution]
    by_cases h1 : pd > 50
    · have : ¬(pd ≤ 50) := not_le.mpr h1
      rw [if_pos h1]
      simp [List.filter_cons, this, ih]
    · rw [if_neg h1]
      have h50 : pd ≤ 50 := not_lt.mp h1
      by_cases h2 : pd > 20
      · rw [if_pos h2]
        simp [List.filter_cons, h2, h50, ih]
      · rw [if_neg h2]
        split_ifs <;> simp [List.filter_cons, h2, ih]

/-- The very_quiet bucket collects exactly the places with difference
below -50. -/
lemma dist_very_quiet (places : List (String × ℚ)) :
    (calculate_pizza_status_distribution places).very_quiet =
      (places.filter fun x => decide (x.2 < -50)).map Prod.fst := by
  induction places with
  | nil => rfl
  | cons hd tl ih =>
    obtain ⟨n, pd⟩ := hd
    simp only [calculate_pizza_status_distribution]
    by_cases h1 : pd > 50
    · have : ¬(pd < -50) := by linarith
      rw [if_pos h1]
      simp [List.filter_cons, this, ih]
    · rw [if_neg h1]
      by_cases h2 : pd > 20
      · have : ¬(pd < -50) := by linarith
        rw [if_pos h2]
        simp [List.filter_cons, this, ih]
      · rw [if_neg h2]
        by_cases h3 : pd < -50
        · rw [if_pos h3]
          simp [List.filter_cons, h3, ih]
        · rw [if_neg h3]
          split_ifs <;> simp [List.filter_cons, h3, ih]

/-- The quiet bucket collects exactly the places with difference in
[-50, -20). -/
lemma dist_quiet (places : List (String × ℚ)) :
    (calculate_pizza_status_distribution places).quiet =
      (places.filter fun x => decide (-50 ≤ x.2 ∧ x.2 < -20)).map Prod.fst := by
  induction places with
  | nil => rfl
  | cons hd tl ih =>
    obtain ⟨n, pd⟩ := hd
    simp only [calculate_pizza_status_distribution]
    by_cases h1 : pd > 50
    · have : ¬(pd < -20) := by linarith
      rw [if_pos h1]
      simp [List.filter_cons, this, ih]
    · rw [if_neg h1]
      by_cases h2 : pd > 20
      · have : ¬(pd < -20) := by linarith
        rw [if_pos h2]
        simp [List.filter_cons, this, ih]
      · rw [if_neg h2]
        by_cases h3 : pd < -50
        · have : ¬(-50 ≤ pd) := not_le.mpr h3
          rw [if_pos h3]
          simp [List.filter_cons, this, ih]
        · rw [if_neg h3]
          have h50 : -50 ≤ pd := not_lt.mp h3
          by_cases h4 : pd < -20
          · rw [if_pos h4]
            simp [List.filter_cons, h4, h50, ih]
          · rw [if_neg h4]
            simp [List.filter_cons, h4, ih]

/-- The typical bucket collects exactly the places with difference in
[-20, 20]. -/
lemma dist_typical (places : List (String × ℚ)) :
    (calculate_pizza_status_distribution places).typical =
      (places.filter fun x => decide (-20 ≤ x.2 ∧ x.2 ≤ 20)).map Prod.fst := by
  induction places with
  | nil => rfl
  | cons hd tl ih =>
    obtain ⟨n, pd⟩ := hd
    simp only [calculate_pizza_status_distribution]
    by_cases h1 : pd > 50
    · have : ¬(pd ≤ 20) := by linarith
      rw [if_pos h1]
      simp [List.filter_cons, this, ih]
    · rw [if_neg h1]
      by_cases h2 : pd > 20
      · have : ¬(pd ≤ 20) := not_le.mpr h2
        rw [if_pos h2]
        simp [List.filter_cons, this, ih]
      · rw [if_neg h2]
        by_cases h3 : pd < -50
        · have : ¬(-20 ≤ pd) := by linarith
          rw [if_pos h3]
          simp [List.filter_cons, this, ih]
        · rw [if_neg h3]
          by_cases h4 : pd < -20
          · have : ¬(-20 ≤ pd) := not_le.mpr h4
            rw [if_pos h4]
            simp [List.filter_cons, this, ih]
          · rw [if_neg h4]
            have hl : -20 ≤ pd := not_lt.mp h4
            have hr : pd ≤ 20 := not_lt.mp h2
            simp [List.filter_cons, hl, hr, ih]

/-- C5 (confirmed): the five-valued venue status classification is governed
by strict-inequality thresholds on percent_difference (each label holds
exactly on its band, buckets are the corresponding sublists in encounter
order), with 20.0 classifying as "typical" and 20.01 as "busy". -/
theorem pizza_status_thresholds :
    (∀ pd : ℚ,
      (pizzaStatusOf pd = "very_busy" ↔ 50 < pd) ∧
      (pizzaStatusOf pd = "busy" ↔ 20 < pd ∧ pd ≤ 50) ∧
      (pizzaStatusOf pd = "very_quiet" ↔ pd < -50) ∧
      (pizzaStatusOf pd = "quiet" ↔ -50 ≤ pd ∧ pd < -20) ∧
      (pizzaStatusOf pd = "typical" ↔ -20 ≤ pd ∧ pd ≤ 20)) ∧
    (∀ places : List (String × ℚ),
      (calculate_pizza_status_distribution places).very_busy =
        (places.filter fun x => decide (50 < x.2)).map Prod.fst ∧
      (calculate_pizza_status_distribution places).busy =
        (places.filter fun x => decide (20 < x.2 ∧ x.2 ≤ 50)).map Prod.fst ∧
      (calculate_pizza_status_distribution places).very_quiet =
        (places.filter fun x => decide (x.2 < -50)).map Prod.fst ∧
      (calculate_pizza_status_distribution places).quiet =
        (places.filter fun x => decide (-50 ≤ x.2 ∧ x.2 < -20)).map Prod.fst ∧
      (calculate_pizza_status_distribution places).typical =
        (places.filter fun x => decide (-20 ≤ x.2 ∧ x.2 ≤ 20)).map Prod.fst) ∧
    pizzaStatusOf 20 = "typical" ∧
    pizzaStatusOf (2001/100) = "busy" := by
  refine ⟨?_, ?_, ?_, ?_⟩
  · intro pd
    unfold pizzaStatusOf
    split_ifs with h1 h2 h3 h4 <;>
      refine ⟨?_, ?_, ?_, ?_, ?_⟩ <;> constructor <;> intro hx <;>
        first
          | rfl
          | assumption
          | (exact ⟨by linarith, by linarith⟩)
          | (exact absurd hx (by decide))
          | (rcases hx with ⟨hx1, hx2⟩; exfalso; linarith)
          | (exfalso; linarith)
  · intro places
    exact ⟨dist_very_busy places, dist_busy places, dist_very_quiet places,
      dist_quiet places, dist_typical places⟩
  · norm_num [pizzaStatusOf]
  · norm_num [pizzaStatusOf]

/-- C3 (code_bug): in stocks.py, a ticker with both prices present gets
`percent_change = round((current-previous)/previous*100, 2)` and a status
matching the sign of the change exactly (e.g. 100 vs 90 gives 11.11 and
"increasing"), and a missing price yields status "unknown" — but app.py's
re-derivation of the status evaluates `None > 0`, raising `TypeError`
instead of producing "unknown" when the change is missing. -/
theorem quote_scoring_spec :
    (∀ t c p, scoreTicker t (.info (some c) (some p)) =
      ⟨t, some c, some (round2 ((c - p) / p * 100)),
        if (c - p) / p * 100 > 0 then "increasing"
        else if (c - p) / p * 100 < 0 then "decreasing" else "stable"⟩) ∧
    (∀ t cur, scoreTicker t (.info cur none) = ⟨t, cur, none, "unknown"⟩) ∧
    (∀ t p, scoreTicker t (.info none (some p)) = ⟨t, none, none, "unknown"⟩) ∧
    scoreTicker "LMT" (.info (some 100) (some 90)) =
      ⟨"LMT", some 100, some (1111/100), "increasing"⟩ ∧
    appStockStatus none = .error "TypeError: NoneType and int comparison" := by
  refine ⟨fun t c p => rfl, fun t cur => ?_, fun t p => rfl, ?_, rfl⟩
  · cases cur <;> rfl
  · have h : ((100 : ℚ) - 90) / 90 * 100 = 100/9 := by norm_num
    show (⟨"LMT", some 100, some (round2 (((100 : ℚ) - 90) / 90 * 100)),
      if ((100 : ℚ) - 90) / 90 * 100 > 0 then "increasing"
      else if ((100 : ℚ) - 90) / 90 * 100 < 0 then "decreasing" else "stable"⟩ : StockData) = _
    rw [h]
    norm_num [round2, round_eq]

/-- C7 counterexample: one raising ticker makes defense_stocks.py's fetch
abort the whole batch (the except block itself raises NameError), so no
partial per-ticker results are returned. -/
theorem defense_stocks_batch_abort_cex :
    get_defense_stocks_data
      [("LMT", TickerOutcome.exn "boom"), ("RTX", TickerOutcome.info (some 1) (some 1))] =
      .error "NameError: name sys is not defined" := rfl

/-- C7 amended (corrected): stocks.py's fetch does return one record per
ticker, degrading a raising ticker to the "error" record — but
defense_stocks.py's fetch, as imported by app.py, aborts the entire batch
with NameError as soon as any ticker raises. -/
theorem quote_fetch_isolation_amended :
    (∀ outcomes : List (String × TickerOutcome),
      (fetch_defense_stocks_data outcomes).length = outcomes.length) ∧
    (∀ t msg, scoreTicker t (.exn msg) = ⟨t, none, none, "error"⟩) ∧
    (∀ pre t msg rest,
      get_defense_stocks_data (pre ++ (t, TickerOutcome.exn msg) :: rest) =
        .error "NameError: name sys is not defined") := by
  refine ⟨fun outcomes => ?_, fun t msg => rfl, fun pre t msg rest => ?_⟩
  · simp [fetch_defense_stocks_data]
  · induction pre with
    | nil => rfl
    | cons hd tl ih =>
      obtain ⟨t0, o0⟩ := hd
      cases o0 with
      | exn m => rfl
      | info cur prev => simp [get_defense_stocks_data, ih, Except.map]

/-- C8 counterexample: with the NEWSAPI credential unset,
`fetch_fresh_headlines` raises (the ValueError sits before the try block)
instead of returning a sequence. -/
theorem fetch_headlines_missing_key_cex :
    fetch_fresh_headlines none (NewsResp.resp "ok" []) =
      .error "ValueError: NEWSAPI_KEY environment variable not set" := rfl

/-- C8 amended (corrected): with the credential set, every failure inside
the request is caught and an empty list is returned (no error value is
reported), but an unset credential raises ValueError out of the fetch. -/
theorem fetch_headlines_amended :
    (∀ k msg, fetch_fresh_headlines (some k) (NewsResp.exn msg) = .ok []) ∧
    (∀ k status arts, fetch_fresh_headlines (some k) (NewsResp.resp status arts) =
      if status = "ok" then .ok (collectArticles arts [] []) else .ok []) ∧
    (∀ up, fetch_fresh_headlines none up =
      .error "ValueError: NEWSAPI_KEY environment variable not set") :=
  ⟨fun _ _ => rfl, fun _ _ _ => rfl, fun _ => rfl⟩

/-- C2 counterexample: a nonempty article list in which every article is
blank (so zero items are scored) yields probability 0 but the generic
zero-band interpretation, not the "no articles" message the claim
requires for the zero-scoreable case. -/
theorem doomsday_blank_articles_interpretation_cex :
    (calculate_doomsday_probability "t0" zeroClassify [blankArticle]).interpretation =
      "Business as usual - no significant global threats detected" ∧
    (calculate_doomsday_probability "t0" zeroClassify [blankArticle]).doomsday_probability = 0 ∧
    "Business as usual - no significant global threats detected" ≠
      "Unable to assess - no news articles found" := by
  have hscore : scoreArticles zeroClassify [blankArticle] = [] := rfl
  have hne : ([blankArticle] : List Article) ≠ [] := by simp
  constructor
  · rw [calculate_doomsday_probability, if_neg hne]
    show interpret_probability (round2 (severityMean (scoreArticles zeroClassify [blankArticle]) * 100)) = _
    rw [hscore]
    norm_num [severityMean, round2, interpret_probability]
  · constructor
    · rw [calculate_doomsday_probability, if_neg hne]
      show round2 (severityMean (scoreArticles zeroClassify [blankArticle]) * 100) = 0
      rw [hscore]
      norm_num [severityMean, round2]
    · decide

/-- C2 amended (corrected): the aggregate probability always equals
`round(mean(severity) * 100, 2)` over the scored items; an EMPTY fetched
list yields probability 0 with the "no articles" interpretation, but a
nonempty list whose articles are all blank (zero scored items) yields
probability 0 with the ordinary zero-band interpretation instead. -/
theorem doomsday_probability_formula :
    (∀ now classify articles, articles ≠ [] →
      (calculate_doomsday_probability now classify articles).doomsday_probability =
        round2 (severityMean (scoreArticles classify articles) * 100)) ∧
    (∀ now classify, calculate_doomsday_probability now classify [] =
      ⟨now, 0, 0, [], "Unable to assess - no news articles found"⟩) ∧
    (∀ now classify articles, articles ≠ [] → scoreArticles classify articles = [] →
      (calculate_doomsday_probability now classify articles).doomsday_probability = 0 ∧
      (calculate_doomsday_probability now classify articles).interpretation =
        "Business as usual - no significant global threats detected") := by
  refine ⟨fun now classify articles h => ?_, fun now classify => rfl,
    fun now classify articles h hsc => ⟨?_, ?_⟩⟩
  · rw [calculate_doomsday_probability, if_neg h]
  · rw [calculate_doomsday_probability, if_neg h]
    show round2 (severityMean (scoreArticles classify articles) * 100) = 0
    rw [hsc]
    norm_num [severityMean, round2]
  · rw [calculate_doomsday_probability, if_neg h]
    show interpret_probability (round2 (severityMean (scoreArticles classify articles) * 100)) = _
    rw [hsc]
    norm_num [severityMean, round2, interpret_probability]

/-- C2 witness: the amended theorem applied to the concrete all-blank
single-article list. -/
theorem doomsday_probability_formula_witness :
    (calculate_doomsday_probability "t1" zeroClassify [blankArticle]).doomsday_probability = 0 :=
  (doomsday_probability_formula.2.2 "t1" zeroClassify [blankArticle] (by simp) rfl).1

/-- Each band assignment increments the total count by exactly one. -/
lemma severityBump_total (c : SeverityCounts) (s : ℚ) :
    (severityBump c s).low + (severityBump c s).medium + (severityBump c s).high +
      (severityBump c s).critical = c.low + c.medium + c.high + c.critical + 1 := by
  unfold severityBump
  split_ifs <;> simp <;> omega

/-- The counting fold adds the list length to the running total. -/
lemma severityFold_total (articles : List ArticleResult) :
    ∀ c : SeverityCounts,
      (articles.foldl (fun c a => severityBump c a.analysis.severity) c).low +
      (articles.foldl (fun c a => severityBump c a.analysis.severity) c).medium +
      (articles.foldl (fun c a => severityBump c a.analysis.severity) c).high +
      (articles.foldl (fun c a => severityBump c a.analysis.severity) c).critical =
        c.low + c.medium + c.high + c.critical + articles.length := by
  induction articles with
  | nil => intro c; simp
  | cons a tl ih =>
    intro c
    simp only [List.foldl_cons, List.length_cons]
    rw [ih (severityBump c a.analysis.severity)]
    have := severityBump_total c a.analysis.severity
    omega

/-- C10 (confirmed): every analyzed article lands in exactly one of the four
severity bands (low ≤ 0.25 < medium ≤ 0.5 < high ≤ 0.75 < critical), so the
four counts always sum to the number of articles; and on an empty article
list every percentage is 0. -/
theorem severity_distribution_bands :
    (∀ articles : List ArticleResult,
      (severityCounts articles).low + (severityCounts articles).medium +
        (severityCounts articles).high + (severityCounts articles).critical =
        articles.length) ∧
    (∀ c s, s ≤ 1/4 → severityBump c s = { c with low := c.low + 1 }) ∧
    (∀ c s, 1/4 < s → s ≤ 1/2 → severityBump c s = { c with medium := c.medium + 1 }) ∧
    (∀ c s, 1/2 < s → s ≤ 3/4 → severityBump c s = { c with high := c.high + 1 }) ∧
    (∀ c s, 3/4 < s → severityBump c s = { c with critical := c.critical + 1 }) ∧
    calculate_severity_distribution [] = (⟨0, 0, 0, 0⟩, ⟨0, 0, 0, 0⟩) := by
  refine ⟨fun articles => ?_, fun c s h1 => ?_, fun c s h1 h2 => ?_,
    fun c s h1 h2 => ?_, fun c s h1 => ?_, rfl⟩
  · have := severityFold_total articles ⟨0, 0, 0, 0⟩
    simpa [severityCounts] using this
  · rw [severityBump, if_pos h1]
  · rw [severityBump, if_neg (not_le.mpr h1), if_pos h2]
  · rw [severityBump, if_neg (by linarith : ¬s ≤ 1/4), if_neg (not_le.mpr h1), if_pos h2]
  · rw [severityBump, if_neg (by linarith : ¬s ≤ 1/4), if_neg (by linarith : ¬s ≤ 1/2),
      if_neg (not_le.mpr h1)]

/-- C10 witness: a severity of 0.1 falls in the low band. -/
theorem severity_distribution_bands_witness :
    severityBump ⟨0, 0, 0, 0⟩ (1/10) = ⟨1, 0, 0, 0⟩ :=
  severity_distribution_bands.2.1 ⟨0, 0, 0, 0⟩ (1/10) (by norm_num)

/-- De-duplication only ever drops elements: the output is a sublist of the
input, so encounter order is preserved. -/
lemma removeDuplicates_sublist (places : List Place) :
    ∀ seen, List.Sublist (removeDuplicates places seen) places := by
  induction places with
  | nil => intro seen; simp [removeDuplicates]
  | cons p rest ih =>
    intro seen
    simp only [removeDuplicates]
    split_ifs
    · exact (ih seen).trans (List.sublist_cons_self p rest)
    · exact List.Sublist.cons₂ p (ih _)

/-- Every element surviving de-duplication has a key outside the seen set. -/
lemma removeDuplicates_key_not_seen (places : List Place) :
    ∀ seen q, q ∈ removeDuplicates places seen → placeKey q ∉ seen := by
  induction places with
  | nil => intro seen q hq; simp [removeDuplicates] at hq
  | cons p rest ih =>
    intro seen q hq
    simp only [removeDuplicates] at hq
    split_ifs at hq with h
    · exact ih seen q hq
    · rcases List.mem_cons.mp hq with rfl | hq2
      · exact h
      · intro hs
        exact ih _ q hq2 (List.mem_cons_of_mem _ hs)

/-- The keys of the de-duplicated list are pairwise distinct. -/
lemma removeDuplicates_nodup (places : List Place) :
    ∀ seen, ((removeDuplicates places seen).map placeKey).Nodup := by
  induction places with
  | nil => intro seen; simp [removeDuplicates]
  | cons p rest ih =>
    intro seen
    simp only [removeDuplicates]
    split_ifs with h
    · exact ih seen
    · simp only [List.map_cons, List.nodup_cons]
      refine ⟨fun hmem => ?_, ih _⟩
      rcases List.mem_map.mp hmem with ⟨q, hq, hkey⟩
      exact removeDuplicates_key_not_seen rest _ q hq
        (by rw [hkey]; exact List.mem_cons_self _ _)

/-- Every unseen input key appears among the output keys. -/
lemma removeDuplicates_mem_key (places : List Place) :
    ∀ seen p, p ∈ places → placeKey p ∉ seen →
      placeKey p ∈ (removeDuplicates places seen).map placeKey := by
  induction places with
  | nil => intro seen p hp; simp at hp
  | cons hd rest ih =>
    intro seen p hp hns
    simp only [removeDuplicates]
    by_cases h : placeKey hd ∈ seen
    · rw [if_pos h]
      rcases List.mem_cons.mp hp with rfl | hp2
      · exact absurd h hns
      · exact ih seen p hp2 hns
    · rw [if_neg h]
      rcases List.mem_cons.mp hp with rfl | hp2
      · simp
      · by_cases hk : placeKey p = placeKey hd
        · simp [List.map_cons, hk]
        · have hmem := ih (placeKey hd :: seen) p hp2
            (by
              intro hin
              rcases List.mem_cons.mp hin with h1 | h2
              · exact hk h1
              · exact hns h2)
          simp only [List.map_cons, List.mem_cons]
          exact Or.inr hmem

/-- Each survivor of de-duplication is the FIRST input element bearing its
key. -/
lemma removeDuplicates_first (places : List Place) :
    ∀ seen q, q ∈ removeDuplicates places seen →
      places.find? (sameKeyAs (placeKey q)) = some q := by
  induction places with
  | nil => intro seen q hq; simp [removeDuplicates] at hq
  | cons p rest ih =>
    intro seen q hq
    simp only [removeDuplicates] at hq
    split_ifs at hq with h
    · have hqk := removeDuplicates_key_not_seen rest seen q hq
      have hne : placeKey p ≠ placeKey q := fun he => hqk (he ▸ h)
      rw [List.find?_cons_of_neg, ih seen q hq]
      simp [sameKeyAs, hne]
    · rcases List.mem_cons.mp hq with rfl | hq2
      · rw [List.find?_cons_of_pos]
        simp [sameKeyAs]
      · have hqk := removeDuplicates_key_not_seen rest _ q hq2
        have hne : placeKey p ≠ placeKey q := by
          intro he
          exact hqk (by rw [← he]; exact List.mem_cons_self _ _)
        rw [List.find?_cons_of_neg, ih _ q hq2]
        simp [sameKeyAs, hne]

/-- C9 (confirmed): de-duplication by the (name, address) key keeps the
first occurrence in encounter order — the output is an order-preserving
sublist of the (concatenated, both-query) input with pairwise-distinct keys
covering every input key, and each kept element is the first input element
with its key. -/
theorem venue_dedup_first_occurrence :
    ∀ places : List Place,
      List.Sublist (unique_places places) places ∧
      ((unique_places places).map placeKey).Nodup ∧
      (∀ p, p ∈ places → placeKey p ∈ (unique_places places).map placeKey) ∧
      (∀ q, q ∈ unique_places places →
        places.find? (sameKeyAs (placeKey q)) = some q) := by
  intro places
  exact ⟨removeDuplicates_sublist places [],
    removeDuplicates_nodup places [],
    fun p hp => removeDuplicates_mem_key places [] p hp (by simp),
    fun q hq => removeDuplicates_first places [] q hq⟩

/-- C9 witness: two fetch results from different place-type queries share a
key; the unique set keeps exactly the first. -/
theorem venue_dedup_first_occurrence_witness :
    [placeA, placeB].find? (sameKeyAs (placeKey placeA)) = some placeA :=
  (venue_dedup_first_occurrence [placeA, placeB]).2.2.2 placeA (by decide)

/-- C4 counterexample: a matching weekday whose hourly table is shorter
than the current hour makes the lookup raise IndexError (the claim says
typical_popularity would be 0); and with current 1 and typical 3 the stored
busyness_ratio is the rounded 0.33, not the exact ratio 1/3 the claim
states. -/
theorem venue_typical_popularity_cex :
    scorePlace "Monday" 1 shortPlace = .error "IndexError: list index out of range" ∧
    ratioOf (scorePlace "Monday" 0 thirdPlace) = some (33/100) ∧
    (33 : ℚ)/100 ≠ (1 : ℚ)/3 := by
  refine ⟨rfl, ?_, by norm_num⟩
  have h : scorePlace "Monday" 0 thirdPlace =
      .ok (some ⟨1, 3, round2 (bratio 1 3), round1 ((bratio 1 3 - 1) * 100),
        venueStatus (round1 ((bratio 1 3 - 1) * 100))⟩) := rfl
  rw [h, ratioOf]
  have hb : bratio 1 3 = 1/3 := by norm_num [bratio]
  rw [hb]
  norm_num [round2, round_eq]

/-- C4 amended (corrected): typical_popularity is the current-hour entry of
the first weekday entry matching the current day (0 when no weekday
matches), but an out-of-range hour raises IndexError—aborting the venue
computation—rather than yielding 0; the stored busyness_ratio is
`round(r, 2)` of the exact ratio r (current/typical when typical > 0, else
the default 1) and percent_difference is `round((r - 1) * 100, 1)` over the
exact ratio. -/
theorem venue_scoring_amended :
    (∀ pts day hour, pts.find? (fun d => decide (d.name = day)) = none →
      typicalPopularity pts day hour = some 0) ∧
    (∀ pts day hour d, pts.find? (fun d => decide (d.name = day)) = some d →
      typicalPopularity pts day hour = d.data.get? hour) ∧
    (∀ day hour p cur typ, p.current_popularity = some cur →
      typicalPopularity p.populartimes day hour = some typ →
      scorePlace day hour p = .ok (some ⟨cur, typ, round2 (bratio cur typ),
        round1 ((bratio cur typ - 1) * 100),
        venueStatus (round1 ((bratio cur typ - 1) * 100))⟩)) ∧
    (∀ day hour p cur, p.current_popularity = some cur →
      typicalPopularity p.populartimes day hour = none →
      scorePlace day hour p = .error "IndexError: list index out of range") := by
  refine ⟨?_, ?_, ?_, ?_⟩
  · intro pts day hour
    induction pts with
    | nil => intro _; rfl
    | cons d rest ih =>
      intro hfind
      by_cases h : d.name = day
      · rw [List.find?_cons_of_pos] at hfind
        · cases hfind
        · simp [h]
      · rw [List.find?_cons_of_neg] at hfind
        · rw [typicalPopularity, if_neg h]
          exact ih hfind
        · simp [h]
  · intro pts day hour d
    induction pts with
    | nil => intro hfind; cases hfind
    | cons d0 rest ih =>
      intro hfind
      by_cases h : d0.name = day
      · rw [List.find?_cons_of_pos] at hfind
        · cases hfind
          rw [typicalPopularity, if_pos h]
        · simp [h]
      · rw [List.find?_cons_of_neg] at hfind
        · rw [typicalPopularity, if_neg h]
          exact ih hfind
        · simp [h]
  · intro day hour p cur typ h1 h2
    rw [scorePlace, h1, h2]
  · intro day hour p cur h1 h2
    rw [scorePlace, h1, h2]

/-- C4 witness: the amended theorem applied to the venue with current
popularity 80 and typical 40 — ratio 2.0, percent difference 100.0. -/
theorem venue_scoring_amended_witness :
    scorePlace "Monday" 0 demoPlace = .ok (some ⟨80, 40, 2, 100, "busier"⟩) := by
  have h := venue_scoring_amended.2.2.1 "Monday" 0 demoPlace 80 40 rfl rfl
  rw [h]
  have hb : bratio 80 40 = 2 := by norm_num [bratio]
  rw [hb]
  norm_num [round2, round1, venueStatus, round_eq]

/-- C1 counterexample: with a live prior snapshot in the venue cache slot, a
tick whose upstream fetch raises does NOT leave the slot unchanged — the
code's except branch overwrites it with a fresh empty snapshot (new
timestamp, zero venues). -/
theorem pizza_error_tick_replaces_snapshot_cex :
    update_pentagon_pizza_data demoTick (Except.error "HTTPError", Except.ok [])
        (some priorPizzaAnalysis) = some (emptyPizzaAnalysis demoTick) ∧
    some (emptyPizzaAnalysis demoTick) ≠ some priorPizzaAnalysis := by
  refine ⟨rfl, ?_⟩
  simp [emptyPizzaAnalysis, priorPizzaAnalysis, demoTick]

/-- C1 amended (corrected): when the venue tick's fetch raises — in either
of the two upstream queries — the cache slot is overwritten with the fresh
empty snapshot carrying the failing tick's timestamp, whatever the slot
held before; the previously published snapshot is discarded, not
preserved. -/
theorem pizza_error_tick_publishes_empty :
    (∀ (t : Tick) (e : String) (other : Except String (List Place))
        (cache : Option PizzaAnalysis),
      update_pentagon_pizza_data t (Except.error e, other) cache =
        some (emptyPizzaAnalysis t)) ∧
    (∀ (t : Tick) (l : List Place) (e : String) (cache : Option PizzaAnalysis),
      update_pentagon_pizza_data t (Except.ok l, Except.error e) cache =
        some (emptyPizzaAnalysis t)) :=
  ⟨fun _ _ _ _ => rfl, fun _ _ _ _ => rfl⟩

end PentagonPizza
